import Mathlib

/-!
Shallow embedding of the refresh-token flow of `yup-oauth2` (`src/refresh.rs`)
and verification of the specification's claims about it.

The file first embeds the data model and the `RefreshFlow::refresh_token`
operation as executable Lean definitions, then states and proves theorems
about them.
-/

set_option autoImplicit false

namespace YupOauth2

/-! ## Form-url encoding (the `url` crate's `form_urlencoded::Serializer`)

`refresh_token` builds its request body with
`form_urlencoded::Serializer::new(&mut req).extend_pairs(...)`, which applies
the WHATWG `application/x-www-form-urlencoded` byte serializer to each key and
value: ASCII alphanumerics and `*`, `-`, `.`, `_` pass through, the space byte
becomes `+`, every other byte becomes `%XX` with uppercase hex, and pairs are
joined as `k=v` separated by `&`. -/

/-- UTF-8 encoding of a single code point, as a list of byte values. -/
def utf8Bytes (c : Char) : List Nat :=
  let n := c.toNat
  if n < 128 then [n]
  else if n < 2048 then [192 + n / 64, 128 + n % 64]
  else if n < 65536 then [224 + n / 4096, 128 + (n / 64) % 64, 128 + n % 64]
  else [240 + n / 262144, 128 + (n / 4096) % 64, 128 + (n / 64) % 64, 128 + n % 64]

/-- The UTF-8 bytes of a string. -/
def strBytes (s : String) : List Nat :=
  s.data.flatMap utf8Bytes

/-- Uppercase hexadecimal digit for `n < 16`. -/
def hexUpperDigit (n : Nat) : Char :=
  if n < 10 then Char.ofNat (48 + n) else Char.ofNat (55 + n)

/-- Bytes the WHATWG form-urlencoded serializer passes through unchanged:
ASCII alphanumerics and `*`, `-`, `.`, `_`. -/
def isFormUrlencodedSafe (b : Nat) : Bool :=
  (48 ≤ b && b ≤ 57) || (65 ≤ b && b ≤ 90) || (97 ≤ b && b ≤ 122) ||
  b == 42 || b == 45 || b == 46 || b == 95

/-- Serialization of one byte: space becomes `+`, safe bytes pass through,
everything else becomes `%XX` with uppercase hex. -/
def encodeByte (b : Nat) : String :=
  if b == 32 then "+"
  else if isFormUrlencodedSafe b then String.singleton (Char.ofNat b)
  else "%" ++ String.singleton (hexUpperDigit (b / 16)) ++ String.singleton (hexUpperDigit (b % 16))

/-- The form-urlencoded byte serialization of a string. -/
def byteSerialize (s : String) : String :=
  String.join ((strBytes s).map encodeByte)

/-- One `key=value` pair of a form-urlencoded body. -/
def serializePair (p : String × String) : String :=
  byteSerialize p.1 ++ "=" ++ byteSerialize p.2

/-- The body produced by `form_urlencoded::Serializer::extend_pairs` on a
fresh string: the serialized pairs in order, joined with `&`. -/
def formUrlencodedSerialize (pairs : List (String × String)) : String :=
  String.intercalate "&" (pairs.map serializePair)

/-! ## JSON values and the response-body decode

`refresh_token` decodes the response body with `res.json::<JsonToken>()`
against the locally derived struct `JsonToken` with fields
`access_token: String`, `token_type: String`, `expires_in: i64`.
We represent a parsed JSON document as a `Json` value and embed the derived
serde deserializer for that struct: fields are visited in document order,
unknown fields are ignored (serde's default), a repeated known field is a
duplicate-field error, a wrongly typed known field is a type error, an
`expires_in` outside the `i64` range fails, and after the last field the first
missing field (in declaration order) is reported. -/

/-- A parsed JSON document. Numbers are modelled as integers, which covers
every value the decoded schema can accept (`expires_in` is an `i64`). -/
inductive Json where
  | null
  | bool (b : Bool)
  | num (n : Int)
  | str (s : String)
  | arr (elems : List Json)
  | obj (fields : List (String × Json))

/-- The locally derived target struct of the response decode
(`refresh.rs` lines 77-82). -/
structure JsonToken where
  access_token : String
  token_type : String
  expires_in : Int
deriving DecidableEq, Repr

/-- Field-by-field visit of a JSON object, as serde's derived deserializer
performs it for `JsonToken`. The three accumulators hold the fields already
seen. -/
def decodeFields : List (String × Json) → Option String → Option String → Option Int →
    Except String JsonToken
  | [], a, tt, ei =>
    match a with
    | none => .error "missing field access_token"
    | some av =>
      match tt with
      | none => .error "missing field token_type"
      | some tv =>
        match ei with
        | none => .error "missing field expires_in"
        | some ev => .ok ⟨av, tv, ev⟩
  | (k, v) :: rest, a, tt, ei =>
    if k == "access_token" then
      match a with
      | some _ => .error "duplicate field access_token"
      | none =>
        match v with
        | .str s => decodeFields rest (some s) tt ei
        | _ => .error "invalid type for access_token"
    else if k == "token_type" then
      match tt with
      | some _ => .error "duplicate field token_type"
      | none =>
        match v with
        | .str s => decodeFields rest a (some s) ei
        | _ => .error "invalid type for token_type"
    else if k == "expires_in" then
      match ei with
      | some _ => .error "duplicate field expires_in"
      | none =>
        match v with
        | .num n =>
          if n < -(2 ^ 63) || 2 ^ 63 ≤ n then .error "expires_in out of i64 range"
          else decodeFields rest a tt (some n)
        | _ => .error "invalid type for expires_in"
    else decodeFields rest a tt ei

/-- The decode step `res.json::<JsonToken>()`: decode a JSON document against
the schema of `JsonToken`. Anything but an object fails. -/
def decodeJsonToken (j : Json) : Except String JsonToken :=
  match j with
  | .obj fields => decodeFields fields none none none
  | _ => .error "invalid type: expected struct JsonToken"

/-! ## Data model -/

/-- Modelled from the spec: `ApplicationSecret` lives in `types.rs`, which is
not part of the sources; the spec (section 4.2) names its inputs as client
identifier, client secret and token endpoint URL, the three fields
`refresh_token` reads. -/
structure ApplicationSecret where
  client_id : String
  client_secret : String
  token_uri : String
deriving DecidableEq, Repr

/-- Modelled from the spec: `FlowType` lives in `types.rs`, which is not part
of the sources; the tests use `FlowType::Device(url)`, identifying the prior
authorization flow. `refresh_token` discards its `flow_type` argument. -/
inductive FlowType where
  | device (device_code_url : String)
deriving DecidableEq, Repr

/-- The credential bundle. The struct itself lives in `lib.rs`, which is not
part of the sources; its five fields are exactly those `refresh_token`
populates (`refresh.rs` lines 96-102) and the spec's data model lists
(section 3). Timestamps are epoch seconds (`i64` in the source). -/
structure Token where
  access_token : String
  token_type : String
  refresh_token : String
  expires_in : Option Int
  expires_in_timestamp : Option Int
deriving DecidableEq, Repr

/-- Modelled from the spec: `Token::expired` lives in `lib.rs`, which is not
part of the sources. Spec section 4.1: `isExpired(now)` returns true iff
`now >= expires_in_timestamp` when the absolute timestamp is set, a pure
comparison with no I/O. The current time is passed explicitly. -/
def Token.expired (t : Token) (now : Int) : Bool :=
  match t.expires_in_timestamp with
  | some ts => decide (ts ≤ now)
  | none => false

/-- The error values carried by `RefreshResult::Error`. `new` stores
`hyper::Error::TooLarge`; `refresh_token` stores the failure returned by
`res.json::<JsonToken>()`. -/
inductive ReqwestError where
  | tooLarge
  | decode (msg : String)
deriving DecidableEq, Repr

/-- All possible outcomes of the refresh flow (`refresh.rs` lines 27-34):
`Error` indicates connection failure, `RefreshError` a server answer without
a new token (server message plus optional detail), `Success` a new `Token`. -/
inductive RefreshResult where
  | Error (e : ReqwestError)
  | RefreshError (msg : String) (detail : Option String)
  | Success (t : Token)
deriving DecidableEq, Repr

/-- The `if let RefreshResult::Success(_)` test of `refresh.rs` line 66. -/
def RefreshResult.isSuccess : RefreshResult → Bool
  | .Success _ => true
  | _ => false

/-- The state of a `RefreshFlow` exchanger: its cached outcome. The source
struct also stores the `hyper::Client` passed to `new`, but `refresh_token`
never reads it (it builds a fresh `reqwest::Client` instead), so the client
is represented by the injected transport outcome below. -/
structure RefreshFlow where
  result : RefreshResult
deriving DecidableEq, Repr

/-- The constructor `RefreshFlow::new` (`refresh.rs` lines 39-44): no request
is issued; the initial cached outcome is
`RefreshResult::Error(hyper::Error::TooLarge)`. -/
def RefreshFlow.new : RefreshFlow :=
  ⟨.Error .tooLarge⟩

/-- The HTTP request `refresh_token` emits through the injected transport. -/
structure HttpRequest where
  method : String
  url : String
  contentType : String
  body : String
deriving DecidableEq, Repr

/-- The injected transport's behaviour for one call: `client.send()` either
fails (`Err(e)`, carrying `e.description()`) or yields a response with a
status code and a body, already parsed as JSON. `reqwest` returns `Ok` for
every completed HTTP exchange, whatever the status. -/
inductive SendOutcome where
  | failure (description : String)
  | response (status : Nat) (body : Json)

/-- The operation `RefreshFlow::refresh_token` (`refresh.rs` lines 60-108).
If the cached
outcome is `Success` it is returned unchanged and no request is emitted.
Otherwise the four-field form body is serialized, a POST to
`client_secret.token_uri` is sent, and the outcome is classified:
a send failure becomes `RefreshError(e.description(), None)`, a response
whose body fails the `JsonToken` decode becomes `Error`, and a decoded body
becomes `Success` with a token reusing the `refresh_token` argument and an
absolute expiry of `now + expires_in`. Returns the new state and the emitted
request, if any; the function's returned `&RefreshResult` is the new state's
`result` field. -/
def RefreshFlow.refresh_token (self : RefreshFlow) (flow_type : FlowType)
    (client_secret : ApplicationSecret) (refresh_token : String)
    (send : SendOutcome) (now : Int) : RefreshFlow × Option HttpRequest :=
  let _ := flow_type
  match self.result with
  | .Success _ => (self, none)
  | _ =>
    let req : HttpRequest :=
      { method := "POST"
        url := client_secret.token_uri
        contentType := "application/x-www-form-urlencoded"
        body := formUrlencodedSerialize
          [("client_id", client_secret.client_id),
           ("client_secret", client_secret.client_secret),
           ("refresh_token", refresh_token),
           ("grant_type", "refresh_token")] }
    let result : RefreshResult :=
      match send with
      | .failure d => .RefreshError d none
      | .response _ body =>
        match decodeJsonToken body with
        | .error e => .Error (.decode e)
        | .ok t =>
          .Success
            { access_token := t.access_token
              token_type := t.token_type
              refresh_token := refresh_token
              expires_in := none
              expires_in_timestamp := some (now + t.expires_in) }
    (⟨result⟩, some req)

/-! ## Helper predicates -/

/-- Exactly one variant of a `RefreshResult` is active: the value is
`Error`, `RefreshError` or `Success`, and these possibilities exclude each
other. -/
def ExactlyOneVariant (r : RefreshResult) : Prop :=
  ((∃ e, r = .Error e) ∧ ¬(∃ m d, r = .RefreshError m d) ∧ ¬(∃ t, r = .Success t)) ∨
  ((∃ m d, r = .RefreshError m d) ∧ ¬(∃ e, r = .Error e) ∧ ¬(∃ t, r = .Success t)) ∨
  ((∃ t, r = .Success t) ∧ ¬(∃ e, r = .Error e) ∧ ¬(∃ m d, r = .RefreshError m d))

theorem exactlyOneVariant_holds (r : RefreshResult) : ExactlyOneVariant r := by
  cases r with
  | Error e => exact Or.inl ⟨⟨e, rfl⟩, by simp, by simp⟩
  | RefreshError m d => exact Or.inr (Or.inl ⟨⟨m, d, rfl⟩, by simp, by simp⟩)
  | Success t => exact Or.inr (Or.inr ⟨⟨t, rfl⟩, by simp, by simp⟩)

/-! ## Claims -/

/-- Claim C1: the spec says a transport failure of the send step yields the
`TransportError` variant (`RefreshResult::Error`). The code instead stores
`RefreshResult::RefreshError(e.description(), None)` — the
`AuthorizationError` variant — when `send()` returns `Err` (`refresh.rs`
line 91). This theorem evaluates the code at the failing input: a fresh
exchanger whose injected transport fails with description
`"connection refused"`. -/
theorem refresh_transport_failure_yields_RefreshError :
    (RefreshFlow.new.refresh_token (.device "url") ⟨"id", "secret", "uri"⟩ "rt"
        (.failure "connection refused") 0).1.result =
      .RefreshError "connection refused" none := rfl

/-- Claim C2: the spec says a server refusal (non-2xx response with an error
payload) yields the `AuthorizationError` variant carrying the server message.
In the code, `send()` returns `Ok` for every completed exchange regardless of
status, the error payload then fails the `JsonToken` decode, and the outcome
is `RefreshResult::Error` (the `TransportError` variant), never
`RefreshError` (`refresh.rs` lines 92-95). This theorem evaluates the code at
the failing input: a 400 response with body `"error": "invalid_grant"`. -/
theorem refresh_server_refusal_yields_Error :
    (RefreshFlow.new.refresh_token (.device "url") ⟨"id", "secret", "uri"⟩ "rt"
        (.response 400 (.obj [("error", .str "invalid_grant")])) 0).1.result =
      .Error (.decode "missing field access_token") := rfl

/-- Claim C3: once the cached outcome is `Success`, every subsequent call —
with any flow type, credentials or refresh-token argument, and any transport
behaviour — returns the cached state unchanged and emits no HTTP request
(`refresh.rs` lines 66-68); there is no transition out of `Success`. -/
theorem refresh_token_success_short_circuit (s : RefreshFlow) (t : Token)
    (h : s.result = .Success t) (ft : FlowType) (cs : ApplicationSecret)
    (rt : String) (send : SendOutcome) (now : Int) :
    s.refresh_token ft cs rt send now = (s, none) := by
  simp [RefreshFlow.refresh_token, h]

theorem refresh_token_success_short_circuit_witness :
    ((RefreshFlow.mk (.Success ⟨"at", "Bearer", "rt1", none, some 10⟩)).refresh_token
        (.device "url") ⟨"id", "secret", "uri"⟩ "other_token" (.failure "e") 0 =
      (⟨.Success ⟨"at", "Bearer", "rt1", none, some 10⟩⟩, none)) :=
  refresh_token_success_short_circuit _ _ rfl _ _ _ _ _

/-- Claim C9: `refresh_token` discards its `flow_type` argument
(`refresh.rs` line 65); two calls differing only in `flow_type` return the
same state and emit the same request, hence the same outcome. -/
theorem refresh_token_ignores_flow_type (s : RefreshFlow) (ft₁ ft₂ : FlowType)
    (cs : ApplicationSecret) (rt : String) (send : SendOutcome) (now : Int) :
    s.refresh_token ft₁ cs rt send now = s.refresh_token ft₂ cs rt send now := rfl

/-- Claim C10: a fresh `RefreshFlow` issues no request in `new` and its
initial cached outcome is the `Error` variant (`hyper::Error::TooLarge`),
never `Success`; hence the first call never takes the cached-`Success`
short-circuit and always emits a request. -/
theorem new_starts_in_Error_and_first_call_sends (ft : FlowType)
    (cs : ApplicationSecret) (rt : String) (send : SendOutcome) (now : Int) :
    RefreshFlow.new.result = .Error .tooLarge ∧
    RefreshFlow.new.result.isSuccess = false ∧
    ∃ q, (RefreshFlow.new.refresh_token ft cs rt send now).2 = some q :=
  ⟨rfl, rfl, _, rfl⟩

/-- Claim C4: when the call does not short-circuit and the response body
decodes to the expected schema, the outcome is `Success` with a token whose
`access_token` and `token_type` are the decoded values, whose
`refresh_token` is the argument unchanged, whose `expires_in_timestamp` is
the construction-time clock plus the decoded `expires_in`, and whose
relative-lifetime field is `none` (`refresh.rs` lines 96-102). -/
theorem refresh_token_decoded_body_yields_Success (s : RefreshFlow)
    (ft : FlowType) (cs : ApplicationSecret) (rt : String) (st : Nat)
    (body : Json) (now : Int) (jt : JsonToken)
    (hns : s.result.isSuccess = false)
    (hdec : decodeJsonToken body = .ok jt) :
    (s.refresh_token ft cs rt (.response st body) now).1.result =
      .Success ⟨jt.access_token, jt.token_type, rt, none, some (now + jt.expires_in)⟩ := by
  cases hr : s.result with
  | Success t => rw [hr] at hns; simp [RefreshResult.isSuccess] at hns
  | Error e => simp [RefreshFlow.refresh_token, hr, hdec]
  | RefreshError m d => simp [RefreshFlow.refresh_token, hr, hdec]

theorem refresh_token_decoded_body_yields_Success_witness :
    RefreshFlow.new.result.isSuccess = false ∧
    decodeJsonToken (.obj [("access_token", .str "1/fFAGRNJru1FTz70BzhT3Zg"),
        ("expires_in", .num 3920), ("token_type", .str "Bearer")]) =
      .ok ⟨"1/fFAGRNJru1FTz70BzhT3Zg", "Bearer", 3920⟩ ∧
    (RefreshFlow.new.refresh_token (.device "url") ⟨"id", "secret", "uri"⟩
        "bogus_refresh_token"
        (.response 200 (.obj [("access_token", .str "1/fFAGRNJru1FTz70BzhT3Zg"),
          ("expires_in", .num 3920), ("token_type", .str "Bearer")])) 100).1.result =
      .Success ⟨"1/fFAGRNJru1FTz70BzhT3Zg", "Bearer", "bogus_refresh_token",
        none, some 4020⟩ :=
  ⟨rfl, rfl,
    refresh_token_decoded_body_yields_Success RefreshFlow.new (.device "url")
      ⟨"id", "secret", "uri"⟩ "bogus_refresh_token" 200
      (.obj [("access_token", .str "1/fFAGRNJru1FTz70BzhT3Zg"),
        ("expires_in", .num 3920), ("token_type", .str "Bearer")]) 100
      ⟨"1/fFAGRNJru1FTz70BzhT3Zg", "Bearer", 3920⟩ rfl rfl⟩

/-- Claim C5: when the call does not short-circuit, the transport completes,
but the body fails the `JsonToken` decode (for example, `access_token` is
missing), the outcome is the `Error` variant carrying the decode failure,
never `Success` (`refresh.rs` lines 93-95). -/
theorem refresh_token_undecodable_body_yields_Error (s : RefreshFlow)
    (ft : FlowType) (cs : ApplicationSecret) (rt : String) (st : Nat)
    (body : Json) (now : Int) (msg : String)
    (hns : s.result.isSuccess = false)
    (hdec : decodeJsonToken body = .error msg) :
    (s.refresh_token ft cs rt (.response st body) now).1.result =
      .Error (.decode msg) := by
  cases hr : s.result with
  | Success t => rw [hr] at hns; simp [RefreshResult.isSuccess] at hns
  | Error e => simp [RefreshFlow.refresh_token, hr, hdec]
  | RefreshError m d => simp [RefreshFlow.refresh_token, hr, hdec]

theorem refresh_token_undecodable_body_yields_Error_witness :
    RefreshFlow.new.result.isSuccess = false ∧
    decodeJsonToken (.obj [("expires_in", .num 3920), ("token_type", .str "Bearer")]) =
      .error "missing field access_token" ∧
    (RefreshFlow.new.refresh_token (.device "url") ⟨"id", "secret", "uri"⟩ "rt"
        (.response 200 (.obj [("expires_in", .num 3920),
          ("token_type", .str "Bearer")])) 0).1.result =
      .Error (.decode "missing field access_token") :=
  ⟨rfl, rfl,
    refresh_token_undecodable_body_yields_Error RefreshFlow.new (.device "url")
      ⟨"id", "secret", "uri"⟩ "rt" 200
      (.obj [("expires_in", .num 3920), ("token_type", .str "Bearer")]) 0
      "missing field access_token" rfl rfl⟩

/-- Claim C6: when the call does not short-circuit, the emitted request is a
POST to `client_secret.token_uri` with content type
`application/x-www-form-urlencoded` and a form-url-encoded body of exactly
the four fields `client_id`, `client_secret`, `refresh_token`,
`grant_type=refresh_token`, in that stable order, with values from the given
credentials and refresh-token argument (`refresh.rs` lines 70-88). -/
theorem refresh_token_request_shape (s : RefreshFlow) (ft : FlowType)
    (cs : ApplicationSecret) (rt : String) (send : SendOutcome) (now : Int)
    (hns : s.result.isSuccess = false) :
    (s.refresh_token ft cs rt send now).2 =
      some ⟨"POST", cs.token_uri, "application/x-www-form-urlencoded",
        formUrlencodedSerialize
          [("client_id", cs.client_id), ("client_secret", cs.client_secret),
           ("refresh_token", rt), ("grant_type", "refresh_token")]⟩ := by
  cases hr : s.result with
  | Success t => rw [hr] at hns; simp [RefreshResult.isSuccess] at hns
  | Error e => simp [RefreshFlow.refresh_token, hr]
  | RefreshError m d => simp [RefreshFlow.refresh_token, hr]

theorem refresh_token_request_shape_witness :
    RefreshFlow.new.result.isSuccess = false ∧
    (RefreshFlow.new.refresh_token (.device "url") ⟨"X", "Y", "https://example/token"⟩
        "bogus token" (.failure "e") 0).2 =
      some ⟨"POST", "https://example/token", "application/x-www-form-urlencoded",
        "client_id=X&client_secret=Y&refresh_token=bogus+token&grant_type=refresh_token"⟩ :=
  ⟨rfl, (refresh_token_request_shape RefreshFlow.new (.device "url")
      ⟨"X", "Y", "https://example/token"⟩ "bogus token" (.failure "e") 0 rfl).trans
    (by decide)⟩

/-- Claim C7: every execution of `refresh_token` terminates with exactly one
of the three outcome variants — the classification is total and the variants
are mutually exclusive — and, by the shape of `RefreshResult`, a `Token`
occurs only inside the `Success` variant. -/
theorem refresh_token_outcome_total_and_exclusive (s : RefreshFlow)
    (ft : FlowType) (cs : ApplicationSecret) (rt : String) (send : SendOutcome)
    (now : Int) :
    ExactlyOneVariant (s.refresh_token ft cs rt send now).1.result :=
  exactlyOneVariant_holds _

/-- Claim C8: for every token with its absolute expiry timestamp set,
`expired now` is true iff `now ≥ expires_in_timestamp` — a strictly earlier
timestamp reports expired, a strictly later one reports not expired, and
equality reports expired; the check is a pure comparison. -/
theorem token_expired_iff_now_ge_timestamp (t : Token) (ts now : Int)
    (h : t.expires_in_timestamp = some ts) :
    (t.expired now = true ↔ now ≥ ts) := by
  simp [Token.expired, h, ge_iff_le]

theorem token_expired_iff_now_ge_timestamp_witness :
    ((Token.mk "at" "Bearer" "rt" none (some 5)).expired 5 = true ↔ (5 : Int) ≥ 5) :=
  token_expired_iff_now_ge_timestamp _ 5 5 rfl

end YupOauth2
